import Mathlib

/-!
Verification of the lightning-faucet bootstrap layer.

This file gives a shallow embedding of the two source files of the
repository — the `static` resource-store package (internal/static/static.go)
and the `main` bootstrap function — and proves properties of the embedding.

Modelling conventions:
* Go `[]byte` / `string` contents are modelled as Lean `String`
  (a Go string is a byte sequence; all keys and contents here are ASCII,
  where Go byte indexing and Lean character indexing coincide).
* A Go `map[string][]byte` is modelled as an association list with unique
  keys; `m[k] = v` (overwrite) is modelled by `mapInsert`, which replaces
  any existing binding for the key.  Go map iteration order is
  unspecified, so no claim depends on the order of the list.
* Effects of external collaborators (the Go template parser, the faucet
  constructor, channel wiping, the TLS serve loop) are parameters of the
  `runMain` model: the bootstrap only branches on their success.
-/

/-- Byte content of a stored file (Go `[]byte`, modelled as a byte string). -/
abbrev Content := String

/-- The `storage` struct of internal/static/static.go: two independent
namespaces, assets and templates, each a map from path to content. -/
structure Storage where
  assets : List (String × Content)
  templates : List (String × Content)
deriving DecidableEq

/-- Go map assignment `m[k] = v`: bind `k` to `v`, replacing any previous
binding for `k` (last write wins), keeping all other keys. -/
def mapInsert (m : List (String × Content)) (k : String) (v : Content) :
    List (String × Content) :=
  (k, v) :: m.filter (fun p => !(p.1 == k))

/-- `storage.Add` of static.go: a file goes to the asset namespace exactly
when `filetype` is the string "static", and to the template namespace for
every other `filetype` value. -/
def Storage.Add (s : Storage) (filetype : String) (filepath : String)
    (content : Content) : Storage :=
  if filetype = "static" then
    ⟨mapInsert s.assets filepath content, s.templates⟩
  else
    ⟨s.assets, mapInsert s.templates filepath content⟩

/-- `storage.Assets` of static.go: the assets map. -/
def Storage.Assets (s : Storage) : List (String × Content) := s.assets

/-- `storage.Templates` of static.go: the templates map. -/
def Storage.Templates (s : Storage) : List (String × Content) := s.templates

/-- Namespace lookup through the public accessors: reads `Assets()` for the
"static" filetype and `Templates()` otherwise, mirroring where `Add` wrote. -/
def lookupNs (s : Storage) (filetype : String) (filepath : String) :
    Option Content :=
  if filetype = "static" then List.lookup filepath s.Assets
  else List.lookup filepath s.Templates

/-- Go string slicing `s[n:]` (drop the first `n` bytes). -/
def strDrop (s : String) (n : Nat) : String := String.mk (s.data.drop n)

/-- Split a character list at every slash, keeping empty segments —
the semantics of Go `strings.Split(s, "/")` at character level. -/
def splitSlashAux : List Char → List (List Char)
  | [] => [[]]
  | c :: cs =>
    if c = '/' then [] :: splitSlashAux cs
    else
      match splitSlashAux cs with
      | [] => [[c]]
      | l :: ls => (c :: l) :: ls

/-- Go `strings.Split(s, "/")`. -/
def splitSlash (s : String) : List String :=
  (splitSlashAux s.data).map String.mk

/-- Go `filepath.Ext(name)`: the suffix starting at the final dot of the
name, or the empty string when the name has no dot. -/
def extOf (s : String) : String :=
  if s.data.contains '.' then
    String.mk ('.' :: (s.data.reverse.takeWhile (fun c => c ≠ '.')).reverse)
  else ""

/-- The media type Go `http.ServeContent` derives from the served
filename via `mime.TypeByExtension` (charset parameters elided; the
content-sniffing fallback for unknown extensions is abstracted as
application/octet-stream). -/
def contentTypeOf (filename : String) : String :=
  match extOf filename with
  | ".css" => "text/css"
  | ".js" => "text/javascript"
  | ".html" => "text/html"
  | ".png" => "image/png"
  | ".jpg" => "image/jpeg"
  | ".jpeg" => "image/jpeg"
  | ".svg" => "image/svg+xml"
  | ".gif" => "image/gif"
  | _ => "application/octet-stream"

/-- Observable outcome of one static-route request: status code, body
bytes written, and the Content-Type header if one was set. -/
structure HttpResponse where
  status : Nat
  body : Content
  contentType : Option String
deriving DecidableEq

/-- The anonymous handler registered for every static route in main.go:
recompute the asset key as `r.URL.Path[7:]` (7 = length of "/static"),
take the final slash-separated segment as the filename, and serve the
store content through `http.ServeContent` when the key is present in the
asset namespace at request time; otherwise write nothing (Go's default
empty 200 response). -/
def staticHandler (assets : List (String × Content)) (urlPath : String) :
    HttpResponse :=
  let filepath := strDrop urlPath 7
  let filename := (splitSlash filepath).getLastD ""
  match List.lookup filepath assets with
  | some content => ⟨200, content, some (contentTypeOf filename)⟩
  | none => ⟨200, "", none⟩

/-- Store-mode static dispatch of main.go: one exact route "/static" ++ key
was registered per asset key present at installation time; a request whose
path matches a registered route runs `staticHandler`, any other request
matches no static route (`none`). -/
def serveStatic (routeKeys : List String) (assets : List (String × Content))
    (urlPath : String) : Option HttpResponse :=
  if routeKeys.any (fun k => "/static" ++ k == urlPath) then
    some (staticHandler assets urlPath)
  else none

/-- Template-data values reachable inside template bodies, as a first-order
value domain: strings, integers, booleans, slices (as cons cells) and
string-keyed field records (as cons cells).  Go values are compared by
`reflect.DeepEqual` structurally through exactly these shapes. -/
inductive TValue where
  | str : String → TValue
  | int : Int → TValue
  | boolean : Bool → TValue
  | listNil : TValue
  | listCons : TValue → TValue → TValue
  | fieldNil : TValue
  | fieldCons : String → TValue → TValue → TValue
deriving DecidableEq

/-- Go `reflect.DeepEqual` on template-data values: recursive structural
comparison, constructor by constructor, field by field. -/
def deepEqual : TValue → TValue → Bool
  | .str a, .str b => a == b
  | .int a, .int b => a == b
  | .boolean a, .boolean b => a == b
  | .listNil, .listNil => true
  | .listCons h1 t1, .listCons h2 t2 => deepEqual h1 h2 && deepEqual t1 t2
  | .fieldNil, .fieldNil => true
  | .fieldCons k1 v1 r1, .fieldCons k2 v2 r2 =>
      k1 == k2 && deepEqual v1 v2 && deepEqual r1 r2
  | _, _ => false

/-- The `equal` template function of main.go: it just calls
`reflect.DeepEqual` on its two arguments. -/
def equal (x y : TValue) : Bool := deepEqual x y

/-- The store-mode template loop of main.go: starting from the empty set,
compile every (path, content) pair of the template namespace as a
sub-template named `filepath[1:]` (the path with its first character
dropped); the first parse failure aborts the whole resolution (`none`).
The Go template parser itself is external code, abstracted as the
`parse` success predicate. -/
def buildStoreTemplates (ts : List (String × Content)) (parse : Content → Bool) :
    Option (List (String × Content)) :=
  match ts with
  | [] => some []
  | (p, c) :: rest =>
    if parse c then
      match buildStoreTemplates rest parse with
      | some r => some ((strDrop p 1, c) :: r)
      | none => none
    else none

/-- Modelled from the spec: the naming rule as the specification words
it — a sub-template is "named by `path` with its leading separator
stripped".  A path that does not begin with the separator keeps its
name unchanged under this reading. -/
def specStripLeadingSep (p : String) : String :=
  match p.data with
  | '/' :: rest => String.mk rest
  | _ => p

/-- The configuration fields of `cfg` that main.go branches on. -/
structure Config where
  TemplatesDir : String
  StaticDir : String
  WipeChannels : Bool
  DisableGenerateInvoices : Bool
  DisablePayInvoices : Bool
  UseLeHTTPS : Bool
deriving DecidableEq

/-- Outcome of the template pre-compilation phase of main.go:
`ok` (a template set was built), `storeFailed` (store mode: some blob
failed to parse, `log.Criticalf` then `return`), or `panicked`
(directory mode: `template.Must` panics on a parse failure). -/
inductive TemplatePhase where
  | ok
  | storeFailed
  | panicked
deriving DecidableEq

/-- The template phase of main.go: directory mode (`TemplatesDir` set)
compiles the glob under `template.Must` (success abstracted as
`localOk`); store mode runs the `buildStoreTemplates` loop. -/
def templatePhase (cfg : Config) (store : Storage) (parse : Content → Bool)
    (localOk : Bool) : TemplatePhase :=
  if cfg.TemplatesDir ≠ "" then
    if localOk then .ok else .panicked
  else
    match buildStoreTemplates store.Templates parse with
    | some _ => .ok
    | none => .storeFailed

/-- Go `crypto/tls` registry value `VersionTLS12`. -/
def versionTLS12 : Nat := 0x0303

/-- Go `crypto/tls` cipher-suite id, ECDHE-ECDSA with ChaCha20-Poly1305. -/
def TLS_ECDHE_ECDSA_WITH_CHACHA20_POLY1305 : Nat := 0xCCA9

/-- Go `crypto/tls` cipher-suite id, ECDHE-ECDSA with AES-256-GCM. -/
def TLS_ECDHE_ECDSA_WITH_AES_256_GCM_SHA384 : Nat := 0xC02C

/-- Go `crypto/tls` cipher-suite id, ECDHE-ECDSA with AES-128-GCM. -/
def TLS_ECDHE_ECDSA_WITH_AES_128_GCM_SHA256 : Nat := 0xC02B

/-- Go `crypto/tls` cipher-suite id, ECDHE-RSA with ChaCha20-Poly1305. -/
def TLS_ECDHE_RSA_WITH_CHACHA20_POLY1305 : Nat := 0xCCA8

/-- Go `crypto/tls` cipher-suite id, ECDHE-RSA with AES-256-GCM. -/
def TLS_ECDHE_RSA_WITH_AES_256_GCM_SHA384 : Nat := 0xC030

/-- Go `crypto/tls` cipher-suite id, ECDHE-RSA with AES-128-GCM. -/
def TLS_ECDHE_RSA_WITH_AES_128_GCM_SHA256 : Nat := 0xC02F

/-- TLS listener parameters of the `http.Server` built in secure mode:
minimum protocol version, cipher-suite allow-list, and the read and
write timeouts in seconds. -/
structure TLSParams where
  minVersion : Nat
  cipherSuites : List Nat
  readTimeoutSec : Nat
  writeTimeoutSec : Nat
deriving DecidableEq

/-- The fixed TLS configuration main.go hard-codes for the HTTPS server:
TLS ≥ 1.2, six ECDHE suites, 30-second read and write timeouts. -/
def secureTLSParams : TLSParams :=
  ⟨versionTLS12,
   [TLS_ECDHE_ECDSA_WITH_CHACHA20_POLY1305,
    TLS_ECDHE_ECDSA_WITH_AES_256_GCM_SHA384,
    TLS_ECDHE_ECDSA_WITH_AES_128_GCM_SHA256,
    TLS_ECDHE_RSA_WITH_CHACHA20_POLY1305,
    TLS_ECDHE_RSA_WITH_AES_256_GCM_SHA384,
    TLS_ECDHE_RSA_WITH_AES_128_GCM_SHA256],
   30, 30⟩

/-- One listener started by main.go: `background` is true for the
`go http.ListenAndServe` starts, false for the foreground
`ListenAndServeTLS`; `tls` carries the TLS parameters for the secure
listener and is `none` for a plain-HTTP listener. -/
structure Listener where
  background : Bool
  tls : Option TLSParams
deriving DecidableEq

/-- Observable outcome of one run of `main`: whether anything was logged
at critical severity, the process exit status (for the paths that block
on a signal, the status after the interrupt arrives), the set of routes
registered on the mux, and the listeners started, in start order. -/
structure MainResult where
  criticalLogged : Bool
  exitCode : Nat
  routes : List String
  listeners : List Listener
deriving DecidableEq

/-- The static routes main.go registers: directory mode installs the one
"/static/" path-prefix catch-all; store mode installs one exact route
"/static" ++ key per asset key present at installation time. -/
def staticRoutesOf (cfg : Config) (assets : List (String × Content)) :
    List String :=
  if cfg.StaticDir ≠ "" then ["/static/"]
  else assets.map (fun p => "/static" ++ p.1)

/-- The control flow of `main` after configuration loading, as a function
of the configuration, the resource store, and the outcomes of the
external collaborators: `parse`/`localOk` for the template engine,
`faucetOk` for `newLightningFaucet`, `closeOk` for `CloseAllChannels`,
and `tlsErr` for whether the foreground `ListenAndServeTLS` returns an
error.  A plain `return` from Go's `main` exits with status 0; `os.Exit(1)`
with 1; a `template.Must` panic with 2. -/
def runMain (cfg : Config) (store : Storage) (parse : Content → Bool)
    (localOk : Bool) (faucetOk : Bool) (closeOk : Bool) (tlsErr : Bool) :
    MainResult :=
  match templatePhase cfg store parse localOk with
  | .panicked => ⟨false, 2, [], []⟩
  | .storeFailed => ⟨true, 0, [], []⟩
  | .ok =>
    if !faucetOk then ⟨true, 1, [], []⟩
    else if cfg.WipeChannels then
      if closeOk then ⟨false, 0, [], []⟩ else ⟨true, 1, [], []⟩
    else
      let routes :=
        ["/", "/info"]
        ++ (if cfg.DisableGenerateInvoices && cfg.DisablePayInvoices then []
            else ["/tools"])
        ++ staticRoutesOf cfg store.Assets
      if cfg.UseLeHTTPS then
        ⟨tlsErr, if tlsErr then 1 else 0, routes,
         [⟨true, none⟩, ⟨false, some secureTLSParams⟩]⟩
      else
        ⟨false, 0, routes, [⟨true, none⟩]⟩

/-- Dropping the 7 bytes of the "/static" route stem from a matched URL
path recovers the asset key, as the handler of main.go relies on. -/
theorem strDrop_static_append (rest : String) :
    strDrop ("/static" ++ rest) 7 = rest := by
  unfold strDrop
  rw [String.data_append]
  rw [show (7 : Nat) = ("/static" : String).data.length from rfl, List.drop_left]

/-- A freshly inserted binding is what a lookup of its key finds. -/
theorem lookup_mapInsert_self (m : List (String × Content)) (k : String)
    (v : Content) : List.lookup k (mapInsert m k v) = some v := by
  simp [mapInsert, List.lookup]

/-- A key with a successful lookup is among the mapped-out keys. -/
theorem lookup_mem_keys {l : List (String × Content)} {k : String}
    {v : Content} (h : List.lookup k l = some v) : k ∈ l.map Prod.fst := by
  induction l with
  | nil => simp [List.lookup] at h
  | cons p rest ih =>
    obtain ⟨a, b⟩ := p
    by_cases he : k = a
    · simp [he]
    · rw [List.lookup, show (k == a) = false by simp [he]] at h
      simp [ih h]

/-- Claim C4 — for every namespace (filetype) and path, adding the same
path twice with different contents leaves the store answering with the
second content: a lookup through `Assets()`/`Templates()` after
`Add(ns,p,c1); Add(ns,p,c2)` yields `c2`, the same as after
`Add(ns,p,c2)` alone (last write wins). -/
theorem add_last_write_wins (s : Storage) (ft p : String) (c1 c2 : Content) :
    lookupNs ((s.Add ft p c1).Add ft p c2) ft p = some c2 ∧
    lookupNs (s.Add ft p c2) ft p = some c2 := by
  unfold lookupNs Storage.Add Storage.Assets Storage.Templates
  by_cases h : ft = "static" <;> simp [h, lookup_mapInsert_self]

/-- Claim C9 — `Add(filetype, path, content)` stores the entry in the
asset namespace exactly when `filetype` is the string "static"; every
other filetype value stores it in the template namespace, leaving the
asset namespace untouched. -/
theorem add_filetype_selects_namespace (s : Storage) (ft p : String)
    (c : Content) :
    (ft = "static" →
      List.lookup p (s.Add ft p c).Assets = some c ∧
      (s.Add ft p c).Templates = s.Templates) ∧
    (ft ≠ "static" →
      List.lookup p (s.Add ft p c).Templates = some c ∧
      (s.Add ft p c).Assets = s.Assets) := by
  unfold Storage.Add Storage.Assets Storage.Templates
  by_cases h : ft = "static" <;> simp [h, lookup_mapInsert_self]

/-- Concrete instance of the C9 theorem: the filetype "asset" (not equal
to "static") lands in the template namespace and leaves assets empty. -/
theorem add_filetype_selects_namespace_witness :
    List.lookup "/p" ((Storage.mk [] []).Add "asset" "/p" "x").Templates
      = some "x" ∧
    ((Storage.mk [] []).Add "asset" "/p" "x").Assets = [] :=
  (add_filetype_selects_namespace ⟨[], []⟩ "asset" "/p" "x").2 (by decide)

/-- Claim C5 — the template equality-test function `equal` returns true
exactly on structurally equal template-data values: deep value equality,
decided by recursive comparison, coincides with propositional equality
of the values. -/
theorem equal_iff_structural (x y : TValue) : equal x y = true ↔ x = y := by
  unfold equal
  induction x generalizing y <;> cases y <;> simp_all [deepEqual, and_assoc]

/-- Counterexample to claim C3 as stated: for the template path "ab",
which has no leading separator, the spec's naming rule keeps the name
"ab", but the store-mode loop names the compiled sub-template by
`filepath[1:]` = "b": the compiled set holds no template named "ab". -/
theorem storeTemplates_spec_name_counterexample :
    buildStoreTemplates [("ab", "x")] (fun _ => true) = some [("b", "x")] ∧
    specStripLeadingSep "ab" = "ab" ∧
    List.lookup (specStripLeadingSep "ab")
      [(("b" : String), ("x" : Content))] = none := by
  refine ⟨by decide, by decide, by decide⟩

/-- Claim C3 (amended) — in store mode every (path, content) pair of the
template namespace yields a compiled sub-template named by the path with
its first character dropped; when the path begins with the separator
this is exactly the path with its leading separator stripped. -/
theorem storeTemplates_named_first_char_dropped
    (ts : List (String × Content)) (parse : Content → Bool)
    (r : List (String × Content)) (h : buildStoreTemplates ts parse = some r)
    (p : String) (c : Content) (hm : (p, c) ∈ ts) :
    (strDrop p 1, c) ∈ r ∧
    (p.data.head? = some '/' → strDrop p 1 = specStripLeadingSep p) := by
  constructor
  · induction ts generalizing r with
    | nil => simp at hm
    | cons q rest ih =>
      obtain ⟨qp, qc⟩ := q
      rw [buildStoreTemplates] at h
      by_cases hp : parse qc
      · rw [if_pos hp] at h
        rcases hr : buildStoreTemplates rest parse with _ | r'
        · rw [hr] at h; exact absurd h (by simp)
        · rw [hr] at h
          have hr2 : r = (strDrop qp 1, qc) :: r' := by
            injection h with h2; exact h2.symm
          subst hr2
          rcases List.mem_cons.mp hm with he | hmem
          · rw [show p = qp from congrArg Prod.fst he,
              show c = qc from congrArg Prod.snd he]
            exact List.mem_cons_self _ _
          · exact List.mem_cons_of_mem _ (ih r' hr hmem)
      · rw [if_neg hp] at h
        exact absurd h (by simp)
  · intro hhead
    obtain ⟨l⟩ := p
    cases l with
    | nil => simp at hhead
    | cons a l2 =>
      have ha : a = '/' := by simpa using hhead
      subst ha
      rfl

/-- Concrete instance of the amended C3 theorem at the separator-led path
"/home.html": the compiled sub-template is named "home.html", which is
the path with its leading separator stripped. -/
theorem storeTemplates_named_first_char_dropped_witness :
    (strDrop "/home.html" 1, ("x" : Content)) ∈
      [(("home.html" : String), ("x" : Content))] ∧
    strDrop "/home.html" 1 = specStripLeadingSep "/home.html" :=
  have h := storeTemplates_named_first_char_dropped
    [("/home.html", "x")] (fun _ => true) [("home.html", "x")] (by decide)
    "/home.html" "x" (by decide)
  ⟨h.1, h.2 (by decide)⟩

/-- Claim C2 evidence — running main with an empty templates directory
(store mode) over a store whose one template blob fails to parse: the
failure is logged at critical severity and no route is registered and no
listener is opened, but the process then returns from `main`, exiting
with status 0 — not the non-zero status the specification requires for
fatal initialization failures (the sibling failure path for the faucet
constructor calls `os.Exit(1)` instead). -/
theorem storeTemplateFailure_logs_and_exits_zero :
    runMain ⟨"", "", false, false, false, false⟩
        ⟨[], [("/home.html", "bad")]⟩ (fun _ => false) true true true false =
      ⟨true, 0, [], []⟩ := by decide

/-- Claim C1 — for every asset key present in the store's asset namespace
when the routes are installed, a GET of "/static" ++ key matches the
installed route and is answered with status 200, a body equal to the
registered content, and a content-type derived from the final segment of
the key (the filename). -/
theorem asset_route_serves_registered (assets : List (String × Content))
    (key : String) (content : Content)
    (h : List.lookup key assets = some content) :
    serveStatic (assets.map Prod.fst) assets ("/static" ++ key) =
      some ⟨200, content,
        some (contentTypeOf ((splitSlash key).getLastD ""))⟩ := by
  have hany : (assets.map Prod.fst).any
      (fun k => "/static" ++ k == "/static" ++ key) = true := by
    rw [List.any_eq_true]
    exact ⟨key, lookup_mem_keys h, by simp⟩
  unfold serveStatic
  rw [if_pos hany]
  simp only [staticHandler, strDrop_static_append, h]

/-- Concrete instance of the C1 theorem, the scenario of the spec: a store
holding "/css/a.css" with body "body{}" answers the matching GET with
status 200, that body, and content-type text/css. -/
theorem asset_route_serves_registered_witness :
    List.lookup "/css/a.css"
      [(("/css/a.css" : String), ("body\x7b\x7d" : Content))] =
      some "body\x7b\x7d" ∧
    serveStatic ["/css/a.css"] [("/css/a.css", "body\x7b\x7d")]
      ("/static" ++ "/css/a.css") =
      some ⟨200, "body\x7b\x7d", some "text/css"⟩ := by
  refine ⟨by decide, ?_⟩
  have h := asset_route_serves_registered
    [("/css/a.css", "body\x7b\x7d")] "/css/a.css" "body\x7b\x7d" (by decide)
  exact h

/-- Claim C6 — a GET under the static public route stem whose derived key
is absent from the asset namespace at request time carries no asset-store
content: whenever the static dispatch produces a response at all, that
response has an empty body. -/
theorem unmatched_key_serves_no_content (routeKeys : List String)
    (assets : List (String × Content)) (rest : String)
    (h : List.lookup rest assets = none) (r : HttpResponse)
    (hr : serveStatic routeKeys assets ("/static" ++ rest) = some r) :
    r.body = "" := by
  unfold serveStatic at hr
  by_cases hc : routeKeys.any (fun k => "/static" ++ k == "/static" ++ rest)
  · rw [if_pos hc] at hr
    have hr2 : staticHandler assets ("/static" ++ rest) = r := by
      injection hr
    rw [← hr2]
    simp only [staticHandler, strDrop_static_append, h]
  · rw [if_neg hc] at hr
    exact absurd hr (by simp)

/-- Concrete instance of the C6 theorem: a route was installed for key
"/x", the asset namespace is empty at request time, and the handler
answers with an empty body. -/
theorem unmatched_key_serves_no_content_witness :
    List.lookup "/x" ([] : List (String × Content)) = none ∧
    serveStatic ["/x"] [] ("/static" ++ "/x") =
      some ⟨200, "", none⟩ ∧
    (HttpResponse.mk 200 "" none).body = "" :=
  ⟨rfl, by decide,
   unmatched_key_serves_no_content ["/x"] [] "/x" rfl ⟨200, "", none⟩
     (by decide)⟩

/-- No store-mode static route string coincides with "/tools": the
"/static" stem already makes the route strictly longer. -/
theorem static_route_ne_tools (k : String) : ("/static" ++ k) ≠ "/tools" := by
  intro h
  have hl := congrArg String.length h
  rw [String.length_append] at hl
  rw [show ("/static" : String).length = 7 from rfl,
    show ("/tools" : String).length = 6 from rfl] at hl
  omega

/-- The route "/tools" is never among the static routes, in either
directory mode or store mode. -/
theorem tools_not_static_route (cfg : Config)
    (assets : List (String × Content)) :
    "/tools" ∉ staticRoutesOf cfg assets := by
  unfold staticRoutesOf
  split
  · decide
  · intro h
    obtain ⟨p, _, he⟩ := List.mem_map.mp h
    exact static_route_ne_tools p.1 he

/-- Claim C10 — when startup reaches route registration, the "/tools"
route is registered exactly when at least one of invoice generation and
invoice payment is enabled: it is absent precisely when both disable
flags are set. -/
theorem tools_route_iff (cfg : Config) (store : Storage)
    (parse : Content → Bool) (localOk closeOk tlsErr : Bool)
    (ht : templatePhase cfg store parse localOk = .ok)
    (hw : cfg.WipeChannels = false) :
    "/tools" ∈ (runMain cfg store parse localOk true closeOk tlsErr).routes ↔
      ¬(cfg.DisableGenerateInvoices = true ∧ cfg.DisablePayInvoices = true) := by
  have hns := tools_not_static_route cfg store.Assets
  by_cases hs : cfg.UseLeHTTPS <;>
    by_cases hg : cfg.DisableGenerateInvoices <;>
      by_cases hp : cfg.DisablePayInvoices <;>
        simp [runMain, ht, hw, hs, hg, hp, hns]

/-- Concrete instance of the C10 theorem: with only invoice generation
disabled, the "/tools" route is registered. -/
theorem tools_route_iff_witness :
    templatePhase ⟨"", "", false, true, false, false⟩ ⟨[], []⟩
      (fun _ => true) true = .ok ∧
    "/tools" ∈ (runMain ⟨"", "", false, true, false, false⟩ ⟨[], []⟩
      (fun _ => true) true true true false).routes :=
  ⟨by decide,
   (tools_route_iff ⟨"", "", false, true, false, false⟩ ⟨[], []⟩
     (fun _ => true) true true false (by decide) rfl).mpr (by simp)⟩

/-- Claim C7 — in any run with secure mode on that starts a listener at
all, the TLS listener carries exactly the fixed configuration: minimum
protocol version TLS 1.2, precisely the six ECDHE (forward-secret)
cipher suites in the source's order, and 30-second read and write
timeouts; the configuration does not depend on the configuration or
store of the run. -/
theorem secure_tls_params_fixed (cfg : Config) (store : Storage)
    (parse : Content → Bool) (localOk faucetOk closeOk tlsErr : Bool)
    (hsec : cfg.UseLeHTTPS = true)
    (h : (runMain cfg store parse localOk faucetOk closeOk tlsErr).listeners
      ≠ []) :
    (runMain cfg store parse localOk faucetOk closeOk
        tlsErr).listeners.filterMap Listener.tls = [secureTLSParams] ∧
    secureTLSParams.minVersion = versionTLS12 ∧
    secureTLSParams.cipherSuites =
      [TLS_ECDHE_ECDSA_WITH_CHACHA20_POLY1305,
       TLS_ECDHE_ECDSA_WITH_AES_256_GCM_SHA384,
       TLS_ECDHE_ECDSA_WITH_AES_128_GCM_SHA256,
       TLS_ECDHE_RSA_WITH_CHACHA20_POLY1305,
       TLS_ECDHE_RSA_WITH_AES_256_GCM_SHA384,
       TLS_ECDHE_RSA_WITH_AES_128_GCM_SHA256] ∧
    secureTLSParams.readTimeoutSec = 30 ∧
    secureTLSParams.writeTimeoutSec = 30 := by
  refine ⟨?_, rfl, rfl, rfl, rfl⟩
  cases htp : templatePhase cfg store parse localOk
  · cases hf : faucetOk
    · simp [runMain, htp, hf] at h
    · cases hwc : cfg.WipeChannels
      · simp [runMain, htp, hf, hwc, hsec, Listener.tls, List.filterMap]
      · cases hco : closeOk <;> simp [runMain, htp, hf, hwc, hco] at h
  · simp [runMain, htp] at h
  · simp [runMain, htp] at h

/-- Concrete instance of the C7 theorem: a secure-mode run over an empty
store starts listeners whose only TLS configuration is the fixed one. -/
theorem secure_tls_params_fixed_witness :
    (runMain ⟨"", "", false, false, false, true⟩ ⟨[], []⟩ (fun _ => true)
      true true true false).listeners ≠ [] ∧
    (runMain ⟨"", "", false, false, false, true⟩ ⟨[], []⟩ (fun _ => true)
      true true true false).listeners.filterMap Listener.tls =
      [secureTLSParams] ∧
    secureTLSParams.minVersion = versionTLS12 :=
  have h := secure_tls_params_fixed ⟨"", "", false, false, false, true⟩
    ⟨[], []⟩ (fun _ => true) true true true false rfl (by decide)
  ⟨by decide, h.1, h.2.1⟩

/-- Claim C8 — once startup reaches the listening phase: with secure mode
off, exactly one listener starts, a background plain-HTTP one and no TLS
listener; with secure mode on, exactly two start, the background
plain-HTTP challenge/redirect listener first and the foreground TLS
listener second. -/
theorem listener_topology (cfg : Config) (store : Storage)
    (parse : Content → Bool) (localOk closeOk tlsErr : Bool)
    (ht : templatePhase cfg store parse localOk = .ok)
    (hw : cfg.WipeChannels = false) :
    (cfg.UseLeHTTPS = false →
      (runMain cfg store parse localOk true closeOk tlsErr).listeners =
        [⟨true, none⟩]) ∧
    (cfg.UseLeHTTPS = true →
      (runMain cfg store parse localOk true closeOk tlsErr).listeners =
        [⟨true, none⟩, ⟨false, some secureTLSParams⟩]) := by
  constructor <;> intro hs <;> simp [runMain, ht, hw, hs]

/-- Concrete instance of the C8 theorem, secure-mode side: two listeners,
the background plain one first, the foreground TLS one second. -/
theorem listener_topology_witness :
    templatePhase ⟨"", "", false, false, false, true⟩ ⟨[], []⟩
      (fun _ => true) true = .ok ∧
    (runMain ⟨"", "", false, false, false, true⟩ ⟨[], []⟩ (fun _ => true)
      true true true false).listeners =
      [⟨true, none⟩, ⟨false, some secureTLSParams⟩] :=
  ⟨by decide,
   (listener_topology ⟨"", "", false, false, false, true⟩ ⟨[], []⟩
     (fun _ => true) true true false (by decide) rfl).2 rfl⟩
